import Mathlib

/-!
Shallow embedding of `ethers-core/src/types/chain.rs`: the `Chain` enum, its
numeric conversions (`TryFromPrimitive` on `u64`, the `impl_try_from_numeric!`
macro for wide integers), the strum-derived string layer (`AsRefStr` /
`Display` / `EnumString`), the serde layer (manual `Serialize`, derived
`Deserialize` with `rename_all = "snake_case"`), and the three metadata tables
(`average_blocktime_hint`, `etherscan_urls`, `is_legacy`).
-/

namespace EthersCore

/-- Chain enum, transliterated in declaration order from the source. -/
inductive Chain where
  | Mainnet
  | Morden
  | Ropsten
  | Rinkeby
  | Goerli
  | Kovan
  | Sepolia
  | Optimism
  | OptimismKovan
  | OptimismGoerli
  | Arbitrum
  | ArbitrumTestnet
  | ArbitrumGoerli
  | ArbitrumNova
  | Cronos
  | CronosTestnet
  | Rsk
  | BinanceSmartChain
  | BinanceSmartChainTestnet
  | Poa
  | Sokol
  | XDai
  | Polygon
  | PolygonMumbai
  | Fantom
  | FantomTestnet
  | Moonbeam
  | MoonbeamDev
  | Moonriver
  | Moonbase
  | Dev
  | AnvilHardhat
  | Evmos
  | EvmosTestnet
  | Chiado
  | Oasis
  | Emerald
  | EmeraldTestnet
  | Avalanche
  | AvalancheFuji
  | Celo
  | CeloAlfajores
  | CeloBaklava
  | Aurora
  | AuroraTestnet
  deriving DecidableEq, Fintype, Repr

/-- Explicit `repr(u64)` discriminant of each variant; this is `u64::from(chain)`
(`chain as u64`). -/
def Chain.to_u64 : Chain → Nat
  | .Mainnet => 1
  | .Morden => 2
  | .Ropsten => 3
  | .Rinkeby => 4
  | .Goerli => 5
  | .Kovan => 42
  | .Sepolia => 11155111
  | .Optimism => 10
  | .OptimismKovan => 69
  | .OptimismGoerli => 420
  | .Arbitrum => 42161
  | .ArbitrumTestnet => 421611
  | .ArbitrumGoerli => 421613
  | .ArbitrumNova => 42170
  | .Cronos => 25
  | .CronosTestnet => 338
  | .Rsk => 30
  | .BinanceSmartChain => 56
  | .BinanceSmartChainTestnet => 97
  | .Poa => 99
  | .Sokol => 77
  | .XDai => 100
  | .Polygon => 137
  | .PolygonMumbai => 80001
  | .Fantom => 250
  | .FantomTestnet => 4002
  | .Moonbeam => 1284
  | .MoonbeamDev => 1281
  | .Moonriver => 1285
  | .Moonbase => 1287
  | .Dev => 1337
  | .AnvilHardhat => 31337
  | .Evmos => 9001
  | .EvmosTestnet => 9000
  | .Chiado => 10200
  | .Oasis => 26863
  | .Emerald => 42262
  | .EmeraldTestnet => 42261
  | .Avalanche => 43114
  | .AvalancheFuji => 43113
  | .Celo => 42220
  | .CeloAlfajores => 44787
  | .CeloBaklava => 62320
  | .Aurora => 1313161554
  | .AuroraTestnet => 1313161555

/-- All variants, in declaration order (the order the derive macros scan them). -/
def Chain.all : List Chain :=
  [.Mainnet, .Morden, .Ropsten, .Rinkeby, .Goerli, .Kovan, .Sepolia,
   .Optimism, .OptimismKovan, .OptimismGoerli,
   .Arbitrum, .ArbitrumTestnet, .ArbitrumGoerli, .ArbitrumNova,
   .Cronos, .CronosTestnet, .Rsk,
   .BinanceSmartChain, .BinanceSmartChainTestnet,
   .Poa, .Sokol, .XDai, .Polygon, .PolygonMumbai,
   .Fantom, .FantomTestnet, .Moonbeam, .MoonbeamDev, .Moonriver, .Moonbase,
   .Dev, .AnvilHardhat, .Evmos, .EvmosTestnet, .Chiado, .Oasis,
   .Emerald, .EmeraldTestnet, .Avalanche, .AvalancheFuji,
   .Celo, .CeloAlfajores, .CeloBaklava, .Aurora, .AuroraTestnet]

/-- TryFromPrimitive on `u64`: match the value against each discriminant in
declaration order, otherwise fail with `TryFromPrimitiveError` carrying the
rejected number (modelled as the `Nat` in the error position). -/
def Chain.from_u64 (v : Nat) : Except Nat Chain :=
  match Chain.all.find? (fun c => Chain.to_u64 c = v) with
  | some c => .ok c
  | none => .error v

/-- Manual `Default` impl from the source: `Self::Mainnet`. -/
def Chain.default : Chain := .Mainnet

/-- Default strum name of each variant under `serialize_all = "kebab-case"`
(the variant identifier converted to kebab case); used when a variant has no
explicit `#[strum(serialize = ...)]` attribute. -/
def Chain.default_name : Chain → String
  | .Mainnet => "mainnet"
  | .Morden => "morden"
  | .Ropsten => "ropsten"
  | .Rinkeby => "rinkeby"
  | .Goerli => "goerli"
  | .Kovan => "kovan"
  | .Sepolia => "sepolia"
  | .Optimism => "optimism"
  | .OptimismKovan => "optimism-kovan"
  | .OptimismGoerli => "optimism-goerli"
  | .Arbitrum => "arbitrum"
  | .ArbitrumTestnet => "arbitrum-testnet"
  | .ArbitrumGoerli => "arbitrum-goerli"
  | .ArbitrumNova => "arbitrum-nova"
  | .Cronos => "cronos"
  | .CronosTestnet => "cronos-testnet"
  | .Rsk => "rsk"
  | .BinanceSmartChain => "binance-smart-chain"
  | .BinanceSmartChainTestnet => "binance-smart-chain-testnet"
  | .Poa => "poa"
  | .Sokol => "sokol"
  | .XDai => "x-dai"
  | .Polygon => "polygon"
  | .PolygonMumbai => "polygon-mumbai"
  | .Fantom => "fantom"
  | .FantomTestnet => "fantom-testnet"
  | .Moonbeam => "moonbeam"
  | .MoonbeamDev => "moonbeam-dev"
  | .Moonriver => "moonriver"
  | .Moonbase => "moonbase"
  | .Dev => "dev"
  | .AnvilHardhat => "anvil-hardhat"
  | .Evmos => "evmos"
  | .EvmosTestnet => "evmos-testnet"
  | .Chiado => "chiado"
  | .Oasis => "oasis"
  | .Emerald => "emerald"
  | .EmeraldTestnet => "emerald-testnet"
  | .Avalanche => "avalanche"
  | .AvalancheFuji => "avalanche-fuji"
  | .Celo => "celo"
  | .CeloAlfajores => "celo-alfajores"
  | .CeloBaklava => "celo-baklava"
  | .Aurora => "aurora"
  | .AuroraTestnet => "aurora-testnet"

/-- Explicit `#[strum(serialize = ...)]` attributes of each variant, in source
order; empty for variants without the attribute. -/
def Chain.serialize_attrs : Chain → List String
  | .BinanceSmartChain => ["bsc"]
  | .BinanceSmartChainTestnet => ["bsc-testnet"]
  | .XDai => ["gnosis", "xdai", "gnosis-chain"]
  | .PolygonMumbai => ["mumbai", "polygon-mumbai"]
  | .Dev => ["dev"]
  | .AnvilHardhat => ["anvil-hardhat", "anvil", "hardhat"]
  | .AvalancheFuji => ["fuji", "avalanche-fuji"]
  | _ => []

/-- Strum preferred-name selection: stable sort of the `serialize` attributes
by string length and take the last (so the longest wins, the later one on a
tie), mirroring `get_preferred_name` in strum_macros. -/
def pickLongest : List String → Option String
  | [] => none
  | s :: rest =>
    match pickLongest rest with
    | none => some s
    | some t => if t.length ≥ s.length then some t else some s

/-- String produced by `AsRefStr` (and hence by `fmt::Display`, which pads it
with the default formatter, and by the manual `Serialize` impl, which calls
`serialize_str(self.as_ref())`): the longest `serialize` attribute if any,
otherwise the kebab-case default name. -/
def Chain.as_ref (c : Chain) : String :=
  match pickLongest (Chain.serialize_attrs c) with
  | some s => s
  | none => Chain.default_name c

/-- Strings accepted by the strum-derived `FromStr`: exactly the `serialize`
attributes when present (they replace the default), otherwise the kebab-case
default name, mirroring `get_serializations` in strum_macros. -/
def Chain.serializations (c : Chain) : List String :=
  match Chain.serialize_attrs c with
  | [] => [Chain.default_name c]
  | attrs => attrs

/-- Strum-derived `FromStr` / `TryFrom<&str>`: exact, case-sensitive match of
the input against each variant accepted strings, in declaration order;
`none` models the `VariantNotFound` error. -/
def Chain.from_str (s : String) : Option Chain :=
  Chain.all.find? (fun c => (Chain.serializations c).contains s)

/-- Variant name under serde `rename_all = "snake_case"`, as used by the
derived `Deserialize` impl. -/
def Chain.snake_name : Chain → String
  | .Mainnet => "mainnet"
  | .Morden => "morden"
  | .Ropsten => "ropsten"
  | .Rinkeby => "rinkeby"
  | .Goerli => "goerli"
  | .Kovan => "kovan"
  | .Sepolia => "sepolia"
  | .Optimism => "optimism"
  | .OptimismKovan => "optimism_kovan"
  | .OptimismGoerli => "optimism_goerli"
  | .Arbitrum => "arbitrum"
  | .ArbitrumTestnet => "arbitrum_testnet"
  | .ArbitrumGoerli => "arbitrum_goerli"
  | .ArbitrumNova => "arbitrum_nova"
  | .Cronos => "cronos"
  | .CronosTestnet => "cronos_testnet"
  | .Rsk => "rsk"
  | .BinanceSmartChain => "binance_smart_chain"
  | .BinanceSmartChainTestnet => "binance_smart_chain_testnet"
  | .Poa => "poa"
  | .Sokol => "sokol"
  | .XDai => "x_dai"
  | .Polygon => "polygon"
  | .PolygonMumbai => "polygon_mumbai"
  | .Fantom => "fantom"
  | .FantomTestnet => "fantom_testnet"
  | .Moonbeam => "moonbeam"
  | .MoonbeamDev => "moonbeam_dev"
  | .Moonriver => "moonriver"
  | .Moonbase => "moonbase"
  | .Dev => "dev"
  | .AnvilHardhat => "anvil_hardhat"
  | .Evmos => "evmos"
  | .EvmosTestnet => "evmos_testnet"
  | .Chiado => "chiado"
  | .Oasis => "oasis"
  | .Emerald => "emerald"
  | .EmeraldTestnet => "emerald_testnet"
  | .Avalanche => "avalanche"
  | .AvalancheFuji => "avalanche_fuji"
  | .Celo => "celo"
  | .CeloAlfajores => "celo_alfajores"
  | .CeloBaklava => "celo_baklava"
  | .Aurora => "aurora"
  | .AuroraTestnet => "aurora_testnet"

/-- Derived serde `Deserialize` from a string: accepts exactly the
`snake_case`-renamed variant name, in declaration order; `none` models the
serde unknown-variant error. -/
def Chain.deserialize (s : String) : Option Chain :=
  Chain.all.find? (fun c => Chain.snake_name c = s)

/-- Bit length of a wide unsigned integer value, as returned by
`U128::bits()` / `U256::bits()` / `U512::bits()`: position of the most
significant set bit plus one, and `0` for the value `0`. -/
def wideBits (v : Nat) : Nat :=
  if v = 0 then 0 else Nat.log2 v + 1

/-- Low 64 bits of a wide unsigned integer value (`low_u64`). -/
def low_u64 (v : Nat) : Nat := v % 2 ^ 64

/-- Body generated by `impl_try_from_numeric!` for `TryFrom<U128/U256/U512>`:
if the value has more than 64 significant bits, fail with
`ParseChainError { number: value.low_u64() }`; otherwise delegate
`value.low_u64()` to the `u64` conversion. The macro emits the same code for
all three widths, so a single definition over `Nat` models all of them. -/
def Chain.try_from_wide (v : Nat) : Except Nat Chain :=
  if 64 < wideBits v then .error (low_u64 v)
  else Chain.from_u64 (low_u64 v)

/-- Average blocktime table, transliterated arm by arm; the result is the
duration in milliseconds (`Duration::from_millis`), `none` for the explicit
`return None` arm. -/
def Chain.average_blocktime_hint : Chain → Option Nat
  | .Arbitrum | .ArbitrumTestnet | .ArbitrumGoerli | .ArbitrumNova => some 1300
  | .Mainnet | .Optimism => some 13000
  | .Polygon | .PolygonMumbai => some 2100
  | .Moonbeam | .Moonriver => some 12500
  | .BinanceSmartChain | .BinanceSmartChainTestnet => some 3000
  | .Avalanche | .AvalancheFuji => some 2000
  | .Fantom | .FantomTestnet => some 1200
  | .Cronos | .CronosTestnet => some 5700
  | .Evmos | .EvmosTestnet => some 1900
  | .Aurora | .AuroraTestnet => some 1100
  | .Oasis => some 5500
  | .Emerald => some 6000
  | .Dev | .AnvilHardhat => some 200
  | .Celo | .CeloAlfajores | .CeloBaklava => some 5000
  | .Morden | .Ropsten | .Rinkeby | .Goerli | .Kovan | .XDai | .Chiado
  | .Sepolia | .Moonbase | .MoonbeamDev | .OptimismGoerli | .OptimismKovan
  | .Poa | .Sokol | .Rsk | .EmeraldTestnet => none

/-- Explorer URL table `(API URL, BASE URL)`, transliterated arm by arm;
`none` for the explicit `return None` arm. -/
def Chain.etherscan_urls : Chain → Option (String × String)
  | .Mainnet => some ("https://api.etherscan.io/api", "https://etherscan.io")
  | .Ropsten => some ("https://api-ropsten.etherscan.io/api", "https://ropsten.etherscan.io")
  | .Kovan => some ("https://api-kovan.etherscan.io/api", "https://kovan.etherscan.io")
  | .Rinkeby => some ("https://api-rinkeby.etherscan.io/api", "https://rinkeby.etherscan.io")
  | .Goerli => some ("https://api-goerli.etherscan.io/api", "https://goerli.etherscan.io")
  | .Sepolia => some ("https://api-sepolia.etherscan.io/api", "https://sepolia.etherscan.io")
  | .Polygon => some ("https://api.polygonscan.com/api", "https://polygonscan.com")
  | .PolygonMumbai => some ("https://api-testnet.polygonscan.com/api", "https://mumbai.polygonscan.com")
  | .Avalanche => some ("https://api.snowtrace.io/api", "https://snowtrace.io")
  | .AvalancheFuji => some ("https://api-testnet.snowtrace.io/api", "https://testnet.snowtrace.io")
  | .Optimism => some ("https://api-optimistic.etherscan.io/api", "https://optimistic.etherscan.io")
  | .OptimismGoerli => some ("https://api-goerli-optimistic.etherscan.io/api", "https://goerli-optimism.etherscan.io")
  | .OptimismKovan => some ("https://api-kovan-optimistic.etherscan.io/api", "https://kovan-optimistic.etherscan.io")
  | .Fantom => some ("https://api.ftmscan.com/api", "https://ftmscan.com")
  | .FantomTestnet => some ("https://api-testnet.ftmscan.com/api", "https://testnet.ftmscan.com")
  | .BinanceSmartChain => some ("https://api.bscscan.com/api", "https://bscscan.com")
  | .BinanceSmartChainTestnet => some ("https://api-testnet.bscscan.com/api", "https://testnet.bscscan.com")
  | .Arbitrum => some ("https://api.arbiscan.io/api", "https://arbiscan.io")
  | .ArbitrumTestnet => some ("https://api-testnet.arbiscan.io/api", "https://testnet.arbiscan.io")
  | .ArbitrumGoerli => some ("https://goerli-rollup-explorer.arbitrum.io/api", "https://goerli-rollup-explorer.arbitrum.io")
  | .ArbitrumNova => some ("https://api-nova.arbiscan.io/api", "https://nova.arbiscan.io/")
  | .Cronos => some ("https://api.cronoscan.com/api", "https://cronoscan.com")
  | .CronosTestnet => some ("https://api-testnet.cronoscan.com/api", "https://testnet.cronoscan.com")
  | .Moonbeam => some ("https://api-moonbeam.moonscan.io/api", "https://moonbeam.moonscan.io/")
  | .Moonbase => some ("https://api-moonbase.moonscan.io/api", "https://moonbase.moonscan.io/")
  | .Moonriver => some ("https://api-moonriver.moonscan.io/api", "https://moonriver.moonscan.io")
  | .XDai => some ("https://blockscout.com/xdai/mainnet/api", "https://blockscout.com/xdai/mainnet")
  | .Chiado => some ("https://blockscout.chiadochain.net/api", "https://blockscout.chiadochain.net")
  | .Sokol => some ("https://blockscout.com/poa/sokol/api", "https://blockscout.com/poa/sokol")
  | .Poa => some ("https://blockscout.com/poa/core/api", "https://blockscout.com/poa/core")
  | .Rsk => some ("https://blockscout.com/rsk/mainnet/api", "https://blockscout.com/rsk/mainnet")
  | .Oasis => some ("https://scan.oasischain.io/api", "https://scan.oasischain.io/")
  | .Emerald => some ("https://explorer.emerald.oasis.dev/api", "https://explorer.emerald.oasis.dev/")
  | .EmeraldTestnet => some ("https://testnet.explorer.emerald.oasis.dev/api", "https://testnet.explorer.emerald.oasis.dev/")
  | .Aurora => some ("https://api.aurorascan.dev/api", "https://aurorascan.dev")
  | .AuroraTestnet => some ("https://testnet.aurorascan.dev/api", "https://testnet.aurorascan.dev")
  | .Evmos => some ("https://evm.evmos.org/api", "https://evm.evmos.org/")
  | .EvmosTestnet => some ("https://evm.evmos.dev/api", "https://evm.evmos.dev/")
  | .Celo => some ("https://explorer.celo.org/mainnet", "https://explorer.celo.org/mainnet/api")
  | .CeloAlfajores => some ("https://explorer.celo.org/alfajores", "https://explorer.celo.org/alfajores/api")
  | .CeloBaklava => some ("https://explorer.celo.org/baklava", "https://explorer.celo.org/baklava/api")
  | .AnvilHardhat | .Dev | .Morden | .MoonbeamDev => none

/-- Legacy-transaction classification, transliterated arm by arm. -/
def Chain.is_legacy : Chain → Bool
  | .Optimism | .OptimismGoerli | .OptimismKovan | .Fantom | .FantomTestnet
  | .BinanceSmartChain | .BinanceSmartChainTestnet | .Arbitrum
  | .ArbitrumTestnet | .ArbitrumGoerli | .ArbitrumNova | .Rsk | .Oasis
  | .Emerald | .EmeraldTestnet | .Celo | .CeloAlfajores | .CeloBaklava => true
  | .Mainnet | .Goerli | .Sepolia | .Polygon | .PolygonMumbai | .Avalanche
  | .AvalancheFuji => false
  | .Dev | .AnvilHardhat | .Morden | .Ropsten | .Rinkeby | .Cronos
  | .CronosTestnet | .Kovan | .Sokol | .Poa | .XDai | .Moonbeam
  | .MoonbeamDev | .Moonriver | .Moonbase | .Evmos | .EvmosTestnet
  | .Chiado | .Aurora | .AuroraTestnet => false

/-- Rust `match` modelled as a first-match lookup over its arms: each arm is
the list of variants in its pattern paired with its result; `none` would mean
a value covered by no arm (which rustc rejects as a non-exhaustive match). -/
def matchArms {α : Type} (arms : List (List Chain × α)) (c : Chain) : Option α :=
  arms.findSome? (fun arm => if c ∈ arm.1 then some arm.2 else none)

/-- Arms of the `average_blocktime_hint` match, in source order. -/
def averageBlocktimeArms : List (List Chain × Option Nat) :=
  [([.Arbitrum, .ArbitrumTestnet, .ArbitrumGoerli, .ArbitrumNova], some 1300),
   ([.Mainnet, .Optimism], some 13000),
   ([.Polygon, .PolygonMumbai], some 2100),
   ([.Moonbeam, .Moonriver], some 12500),
   ([.BinanceSmartChain, .BinanceSmartChainTestnet], some 3000),
   ([.Avalanche, .AvalancheFuji], some 2000),
   ([.Fantom, .FantomTestnet], some 1200),
   ([.Cronos, .CronosTestnet], some 5700),
   ([.Evmos, .EvmosTestnet], some 1900),
   ([.Aurora, .AuroraTestnet], some 1100),
   ([.Oasis], some 5500),
   ([.Emerald], some 6000),
   ([.Dev, .AnvilHardhat], some 200),
   ([.Celo, .CeloAlfajores, .CeloBaklava], some 5000),
   ([.Morden, .Ropsten, .Rinkeby, .Goerli, .Kovan, .XDai, .Chiado, .Sepolia,
     .Moonbase, .MoonbeamDev, .OptimismGoerli, .OptimismKovan, .Poa, .Sokol,
     .Rsk, .EmeraldTestnet], none)]

/-- Arms of the `etherscan_urls` match, in source order. -/
def etherscanUrlArms : List (List Chain × Option (String × String)) :=
  [([.Mainnet], some ("https://api.etherscan.io/api", "https://etherscan.io")),
   ([.Ropsten], some ("https://api-ropsten.etherscan.io/api", "https://ropsten.etherscan.io")),
   ([.Kovan], some ("https://api-kovan.etherscan.io/api", "https://kovan.etherscan.io")),
   ([.Rinkeby], some ("https://api-rinkeby.etherscan.io/api", "https://rinkeby.etherscan.io")),
   ([.Goerli], some ("https://api-goerli.etherscan.io/api", "https://goerli.etherscan.io")),
   ([.Sepolia], some ("https://api-sepolia.etherscan.io/api", "https://sepolia.etherscan.io")),
   ([.Polygon], some ("https://api.polygonscan.com/api", "https://polygonscan.com")),
   ([.PolygonMumbai], some ("https://api-testnet.polygonscan.com/api", "https://mumbai.polygonscan.com")),
   ([.Avalanche], some ("https://api.snowtrace.io/api", "https://snowtrace.io")),
   ([.AvalancheFuji], some ("https://api-testnet.snowtrace.io/api", "https://testnet.snowtrace.io")),
   ([.Optimism], some ("https://api-optimistic.etherscan.io/api", "https://optimistic.etherscan.io")),
   ([.OptimismGoerli], some ("https://api-goerli-optimistic.etherscan.io/api", "https://goerli-optimism.etherscan.io")),
   ([.OptimismKovan], some ("https://api-kovan-optimistic.etherscan.io/api", "https://kovan-optimistic.etherscan.io")),
   ([.Fantom], some ("https://api.ftmscan.com/api", "https://ftmscan.com")),
   ([.FantomTestnet], some ("https://api-testnet.ftmscan.com/api", "https://testnet.ftmscan.com")),
   ([.BinanceSmartChain], some ("https://api.bscscan.com/api", "https://bscscan.com")),
   ([.BinanceSmartChainTestnet], some ("https://api-testnet.bscscan.com/api", "https://testnet.bscscan.com")),
   ([.Arbitrum], some ("https://api.arbiscan.io/api", "https://arbiscan.io")),
   ([.ArbitrumTestnet], some ("https://api-testnet.arbiscan.io/api", "https://testnet.arbiscan.io")),
   ([.ArbitrumGoerli], some ("https://goerli-rollup-explorer.arbitrum.io/api", "https://goerli-rollup-explorer.arbitrum.io")),
   ([.ArbitrumNova], some ("https://api-nova.arbiscan.io/api", "https://nova.arbiscan.io/")),
   ([.Cronos], some ("https://api.cronoscan.com/api", "https://cronoscan.com")),
   ([.CronosTestnet], some ("https://api-testnet.cronoscan.com/api", "https://testnet.cronoscan.com")),
   ([.Moonbeam], some ("https://api-moonbeam.moonscan.io/api", "https://moonbeam.moonscan.io/")),
   ([.Moonbase], some ("https://api-moonbase.moonscan.io/api", "https://moonbase.moonscan.io/")),
   ([.Moonriver], some ("https://api-moonriver.moonscan.io/api", "https://moonriver.moonscan.io")),
   ([.XDai], some ("https://blockscout.com/xdai/mainnet/api", "https://blockscout.com/xdai/mainnet")),
   ([.Chiado], some ("https://blockscout.chiadochain.net/api", "https://blockscout.chiadochain.net")),
   ([.Sokol], some ("https://blockscout.com/poa/sokol/api", "https://blockscout.com/poa/sokol")),
   ([.Poa], some ("https://blockscout.com/poa/core/api", "https://blockscout.com/poa/core")),
   ([.Rsk], some ("https://blockscout.com/rsk/mainnet/api", "https://blockscout.com/rsk/mainnet")),
   ([.Oasis], some ("https://scan.oasischain.io/api", "https://scan.oasischain.io/")),
   ([.Emerald], some ("https://explorer.emerald.oasis.dev/api", "https://explorer.emerald.oasis.dev/")),
   ([.EmeraldTestnet], some ("https://testnet.explorer.emerald.oasis.dev/api", "https://testnet.explorer.emerald.oasis.dev/")),
   ([.Aurora], some ("https://api.aurorascan.dev/api", "https://aurorascan.dev")),
   ([.AuroraTestnet], some ("https://testnet.aurorascan.dev/api", "https://testnet.aurorascan.dev")),
   ([.Evmos], some ("https://evm.evmos.org/api", "https://evm.evmos.org/")),
   ([.EvmosTestnet], some ("https://evm.evmos.dev/api", "https://evm.evmos.dev/")),
   ([.Celo], some ("https://explorer.celo.org/mainnet", "https://explorer.celo.org/mainnet/api")),
   ([.CeloAlfajores], some ("https://explorer.celo.org/alfajores", "https://explorer.celo.org/alfajores/api")),
   ([.CeloBaklava], some ("https://explorer.celo.org/baklava", "https://explorer.celo.org/baklava/api")),
   ([.AnvilHardhat, .Dev, .Morden, .MoonbeamDev], none)]

/-- Arms of the `is_legacy` match, in source order. -/
def isLegacyArms : List (List Chain × Bool) :=
  [([.Optimism, .OptimismGoerli, .OptimismKovan, .Fantom, .FantomTestnet,
     .BinanceSmartChain, .BinanceSmartChainTestnet, .Arbitrum, .ArbitrumTestnet,
     .ArbitrumGoerli, .ArbitrumNova, .Rsk, .Oasis, .Emerald, .EmeraldTestnet,
     .Celo, .CeloAlfajores, .CeloBaklava], true),
   ([.Mainnet, .Goerli, .Sepolia, .Polygon, .PolygonMumbai, .Avalanche,
     .AvalancheFuji], false),
   ([.Dev, .AnvilHardhat, .Morden, .Ropsten, .Rinkeby, .Cronos, .CronosTestnet,
     .Kovan, .Sokol, .Poa, .XDai, .Moonbeam, .MoonbeamDev, .Moonriver,
     .Moonbase, .Evmos, .EvmosTestnet, .Chiado, .Aurora, .AuroraTestnet],
    false)]

/-- Rust derived `Ord`/`PartialOrd` on a fieldless enum compares the
discriminant values, here the explicit `repr(u64)` chain ids. -/
def Chain.cmp (a b : Chain) : Ordering :=
  compare (Chain.to_u64 a) (Chain.to_u64 b)

/-- Helper: the wide-integer bit-length check `value.bits() > 64` holds
exactly when the value does not fit in 64 bits. -/
theorem wideBits_gt_64_iff (v : Nat) : 64 < wideBits v ↔ 2 ^ 64 ≤ v := by
  unfold wideBits
  rcases eq_or_ne v 0 with h | h
  · subst h; simp
  · rw [if_neg h, Nat.log2_eq_log_two, Nat.lt_add_one_iff,
      ← Nat.pow_le_iff_le_log one_lt_two h]

/-- C1: converting every Chain variant to its u64 chain id and converting
that id back yields Ok of the same variant. -/
theorem from_u64_to_u64_roundtrip (c : Chain) :
    Chain.from_u64 (Chain.to_u64 c) = .ok c := by
  cases c <;> rfl

/-- C2: formatting every Chain variant with Display (its AsRefStr string) and
parsing that string back with FromStr yields the same variant. -/
theorem from_str_as_ref_roundtrip (c : Chain) :
    Chain.from_str (Chain.as_ref c) = some c := by
  cases c <;> rfl

/-- C3: for a wide (up to 512-bit) integer value, the conversion fails with an
error carrying exactly the low 64 bits when the value has more than 64
significant bits, and otherwise equals `from_u64` on the low 64 bits. -/
theorem try_from_wide_spec (v : Nat) (_hv : v < 2 ^ 512) :
    (2 ^ 64 ≤ v → Chain.try_from_wide v = .error (v % 2 ^ 64)) ∧
    (v < 2 ^ 64 → Chain.try_from_wide v = Chain.from_u64 (v % 2 ^ 64)) := by
  constructor
  · intro h
    rw [Chain.try_from_wide, if_pos ((wideBits_gt_64_iff v).mpr h)]
    rfl
  · intro h
    rw [Chain.try_from_wide,
      if_neg (fun hc => absurd ((wideBits_gt_64_iff v).mp hc) (not_le.mpr h))]
    rfl

/-- Witness for C3: a 65-bit value fails with its (zero) low 64 bits, and a
value that fits in 64 bits is delegated to `from_u64`. -/
theorem try_from_wide_spec_witness :
    ((2 : Nat) ^ 64 < 2 ^ 512 ∧ 2 ^ 64 ≤ (2 : Nat) ^ 64 ∧
      Chain.try_from_wide (2 ^ 64) = .error (2 ^ 64 % 2 ^ 64)) ∧
    ((56 : Nat) < 2 ^ 512 ∧ (56 : Nat) < 2 ^ 64 ∧
      Chain.try_from_wide 56 = Chain.from_u64 (56 % 2 ^ 64)) :=
  ⟨⟨by norm_num, le_refl _, (try_from_wide_spec (2 ^ 64) (by norm_num)).1 (le_refl _)⟩,
   ⟨by norm_num, by norm_num, (try_from_wide_spec 56 (by norm_num)).2 (by norm_num)⟩⟩

/-- C4: serde round-trip failure. `Serialize` emits the strum string (e.g.
"optimism-kovan", "bsc"), but the derived `Deserialize` with
`rename_all = "snake_case"` accepts only the snake_case variant name
("optimism_kovan", "binance_smart_chain"), so deserializing the serialized
form fails and strum aliases are not accepted either. -/
theorem serde_roundtrip_failure :
    Chain.as_ref .OptimismKovan = "optimism-kovan" ∧
    Chain.deserialize (Chain.as_ref .OptimismKovan) = none ∧
    Chain.deserialize "bsc" = none ∧
    Chain.deserialize "optimism_kovan" = some .OptimismKovan :=
  ⟨rfl, rfl, rfl, rfl⟩

/-- C5 counterexample: chain id 100 is `XDai`, but its kebab-case canonical
name "x-dai" does not parse, because the explicit strum `serialize`
attributes replace the default name in `FromStr`. -/
theorem xdai_canonical_name_not_parsed :
    Chain.from_u64 100 = .ok .XDai ∧ Chain.from_str "x-dai" = none :=
  ⟨rfl, rfl⟩

/-- C5 amended: every alias in the documented table parses to its chain, and
of the table canonical names those without explicit aliases parse too, while
"binance-smart-chain", "binance-smart-chain-testnet" and "x-dai" are replaced
by their aliases and do not parse. -/
theorem alias_table_resolution :
    Chain.from_str "bsc" = some .BinanceSmartChain ∧
    Chain.from_str "bsc-testnet" = some .BinanceSmartChainTestnet ∧
    Chain.from_str "gnosis" = some .XDai ∧
    Chain.from_str "xdai" = some .XDai ∧
    Chain.from_str "gnosis-chain" = some .XDai ∧
    Chain.from_str "mumbai" = some .PolygonMumbai ∧
    Chain.from_str "polygon-mumbai" = some .PolygonMumbai ∧
    Chain.from_str "dev" = some .Dev ∧
    Chain.from_str "anvil-hardhat" = some .AnvilHardhat ∧
    Chain.from_str "anvil" = some .AnvilHardhat ∧
    Chain.from_str "hardhat" = some .AnvilHardhat ∧
    Chain.from_str "fuji" = some .AvalancheFuji ∧
    Chain.from_str "avalanche-fuji" = some .AvalancheFuji ∧
    Chain.from_str "x-dai" = none ∧
    Chain.from_str "binance-smart-chain" = none ∧
    Chain.from_str "binance-smart-chain-testnet" = none :=
  ⟨rfl, rfl, rfl, rfl, rfl, rfl, rfl, rfl, rfl, rfl, rfl, rfl, rfl, rfl,
   rfl, rfl⟩

/-- C6 counterexample: the chain with id 56 is `BinanceSmartChain`, but its
display string is not "binance-smart-chain" (it is the strum serialize
attribute "bsc"). -/
theorem chain56_canonical_name_counterexample :
    Chain.from_u64 56 = .ok .BinanceSmartChain ∧
    Chain.as_ref .BinanceSmartChain ≠ "binance-smart-chain" :=
  ⟨rfl, by decide⟩

/-- C6 amended: for the chain constructed from id 56 the display name is
"bsc" (which parses back to it, while "binance-smart-chain" does not parse),
`is_legacy` is true, and the average blocktime is 3000 ms. -/
theorem chain56_properties :
    Chain.from_u64 56 = .ok .BinanceSmartChain ∧
    Chain.as_ref .BinanceSmartChain = "bsc" ∧
    Chain.from_str "bsc" = some .BinanceSmartChain ∧
    Chain.from_str "binance-smart-chain" = none ∧
    Chain.is_legacy .BinanceSmartChain = true ∧
    Chain.average_blocktime_hint .BinanceSmartChain = some 3000 :=
  ⟨rfl, rfl, rfl, rfl, rfl, rfl⟩

/-- C7: the default Chain is Mainnet with id 1, and serializing it emits the
string "mainnet". -/
theorem default_is_mainnet_serializes_mainnet :
    Chain.default = .Mainnet ∧ Chain.to_u64 Chain.default = 1 ∧
    Chain.as_ref Chain.default = "mainnet" :=
  ⟨rfl, rfl, rfl⟩

/-- C8: for every u64 value that is not the id of any Chain variant,
`from_u64` fails with an error carrying the rejected value. -/
theorem from_u64_unknown_id (v : Nat) (_hu : v < 2 ^ 64)
    (h : ∀ c : Chain, Chain.to_u64 c ≠ v) :
    Chain.from_u64 v = .error v := by
  rw [Chain.from_u64]
  have hnone : Chain.all.find? (fun c => Chain.to_u64 c = v) = none := by
    rw [List.find?_eq_none]
    intro c _
    simp [h c]
  rw [hnone]

/-- Witness for C8: 0 is not a chain id and is rejected carrying 0. -/
theorem from_u64_unknown_id_witness :
    (0 : Nat) < 2 ^ 64 ∧ (∀ c : Chain, Chain.to_u64 c ≠ 0) ∧
    Chain.from_u64 0 = .error 0 :=
  ⟨by norm_num, by decide, from_u64_unknown_id 0 (by norm_num) (by decide)⟩

/-- C9: the three metadata matches cover every Chain variant: each first-match
lookup over the transliterated arms finds an arm (no missing case) and its
result agrees with the function. -/
theorem metadata_matches_exhaustive (c : Chain) :
    matchArms averageBlocktimeArms c = some (Chain.average_blocktime_hint c) ∧
    matchArms etherscanUrlArms c = some (Chain.etherscan_urls c) ∧
    matchArms isLegacyArms c = some (Chain.is_legacy c) := by
  cases c <;> exact ⟨rfl, rfl, rfl⟩

/-- C10: the derived ordering on Chain (comparison of the `repr(u64)`
discriminants) agrees with the numeric ordering of chain ids. -/
theorem ord_agrees_with_chain_id (a b : Chain) :
    (Chain.cmp a b ≠ .gt ↔ Chain.to_u64 a ≤ Chain.to_u64 b) ∧
    (Chain.cmp a b = .lt ↔ Chain.to_u64 a < Chain.to_u64 b) := by
  constructor
  · simp only [Chain.cmp, ne_eq, Nat.compare_eq_gt, not_lt]
  · simp only [Chain.cmp, Nat.compare_eq_lt]

end EthersCore
